import Mathlib

/-!
Verification of `scripts/download_mediapipe_lite.py` (Forma Mobile Fitness App).

The script downloads a fixed model file to `assets/models/pose_landmark_lite.tflite`:
it creates the destination directory (`Path.mkdir(parents=True, exist_ok=True)`,
line 22, *before* the `try:` block), then inside `try:` calls
`urllib.request.urlretrieve` with a `show_progress` hook, stats the written file,
and prints a success report; any exception raised inside the `try:` is caught,
a failure message plus manual-recovery instructions are printed, and `False` is
returned.  `__main__` exits with `0` when `download_model()` returns `True` and
`1` when it returns `False`.

The embedding models the filesystem as explicit state and the outcomes of the
library calls (`mkdir`, `urlretrieve`, `stat`) as an environment of oracles;
the script's own control flow, printed output and return value are translated
directly from the source.  Printed lines are modelled as structured messages.
-/

namespace Forma

/-- File contents: a sequence of bytes. -/
abbrev Bytes := List Nat

/-- Filesystem state: the set of existing directories and a map from
paths to file contents. -/
structure FS where
  dirs : List String
  files : String → Option Bytes

/-- Read a file's contents (what `stat` / opening the file sees). -/
def FS.read (fs : FS) (p : String) : Option Bytes :=
  fs.files p

/-- Write a file, replacing any existing contents at that path
(`urlretrieve` opens the destination with mode `wb`: truncating overwrite). -/
def FS.write (fs : FS) (p : String) (b : Bytes) : FS :=
  { fs with files := fun q => if q = p then some b else fs.files q }

/-- `MODEL_DIR = Path("assets/models")` (line 12). -/
def MODEL_DIR : String := "assets/models"

/-- `MODEL_FILE = "pose_landmark_lite.tflite"` (line 13). -/
def MODEL_FILE : String := "pose_landmark_lite.tflite"

/-- `MODEL_URL` (line 14). -/
def MODEL_URL : String :=
  "https://cdn.jsdelivr.net/npm/@mediapipe/pose@0.5.1675469404/pose_landmark_lite.tflite"

/-- `model_path = MODEL_DIR / MODEL_FILE` (line 24). -/
def model_path : String := MODEL_DIR ++ "/" ++ MODEL_FILE

/-- Environment of outcomes for the OS / network calls the script makes.
`mkdirFails`: whether the OS raises when the directory must actually be
created (e.g. permission denied).  `retrieveOutcome`: the network transfer
either raises with an error message or delivers the payload bytes.
`progressCalls`: the `(block_num, block_size, total_size)` triples the
transfer passes to the progress hook.  `statFails`: whether the post-transfer
`stat` raises.  `cwd`: the process working directory, against which
`Path.absolute()` resolves relative paths. -/
structure Env where
  mkdirFails : Option String
  retrieveOutcome : Except String Bytes
  progressCalls : List (Nat × Nat × Int)
  statFails : Option String
  cwd : String

/-- `Path.absolute()`: resolve a relative path against the working directory. -/
def absolutePath (cwd p : String) : String := cwd ++ "/" ++ p

/-- `MODEL_DIR.mkdir(parents=True, exist_ok=True)` (line 22): succeeds
silently when the directory already exists; otherwise creates it, unless the
OS raises. -/
def mkdirAct (env : Env) (fs : FS) (d : String) : Except String FS :=
  if d ∈ fs.dirs then Except.ok fs
  else
    match env.mkdirFails with
    | some msg => Except.error msg
    | none => Except.ok { fs with dirs := d :: fs.dirs }

/-- `show_progress(block_num, block_size, total_size)` (lines 32-35):
`downloaded = block_num * block_size`;
`percent = min(downloaded * 100 / total_size, 100) if total_size > 0 else 0`.
Exact rational arithmetic models Python's true division. -/
def show_progress (block_num block_size : Nat) (total_size : Int) : ℚ :=
  if total_size > 0
  then min (((block_num * block_size : Nat) : ℚ) * 100 / (total_size : ℚ)) 100
  else 0

/-- One printed line of the script, as a structured message. -/
inductive Msg where
  | header
  | urlLine (url : String)
  | destLine (path : String)
  | progressLine (percent downloadedMB totalMB : ℚ)
  | blank
  | successBanner (file : String)
  | fileSizeLine (mb : ℚ)
  | locationLine (path : String)
  | downloadFailed (err : String)
  | manualHint
  | manualUrl (url : String)
  | manualSave (path : String)
  deriving DecidableEq

/-- Rendering `f"{x:.2f}"`: the value rounded to two decimal places. -/
def round2 (q : ℚ) : ℚ := ((round (q * 100) : ℤ) : ℚ) / 100

/-- The progress lines printed by the hook during the transfer (line 35):
percent, downloaded MB and total MB. -/
def progressOutput (env : Env) : List Msg :=
  env.progressCalls.map fun c =>
    Msg.progressLine (show_progress c.1 c.2.1 c.2.2)
      (((c.1 * c.2.1 : Nat) : ℚ) / 1024 / 1024) ((c.2.2 : ℚ) / 1024 / 1024)

/-- `urllib.request.urlretrieve(MODEL_URL, model_path, show_progress)`
(line 37): on success the payload is written to the destination path,
truncating any existing file; on failure the exception carries a message. -/
def retrieveAct (env : Env) (fs : FS) (url path : String) : Except String FS :=
  match env.retrieveOutcome with
  | Except.error msg => Except.error msg
  | Except.ok b => Except.ok (fs.write path b)

/-- `model_path.stat().st_size` (line 41): the size of the file at the path,
or an exception if the OS raises (e.g. the file is missing). -/
def statAct (env : Env) (fs : FS) (p : String) : Except String Nat :=
  match env.statFails with
  | some msg => Except.error msg
  | none =>
    match fs.read p with
    | some b => Except.ok b.length
    | none => Except.error "No such file or directory"

/-- Result of one run of `download_model`: final filesystem, printed output,
and either the returned boolean or an uncaught propagated exception. -/
structure RunResult where
  fs : FS
  output : List Msg
  result : Except String Bool

/-- The three lines printed before the `try:` block (lines 26-28). -/
def headerOutput : List Msg :=
  [Msg.header, Msg.urlLine MODEL_URL, Msg.destLine model_path]

/-- The `except` block's output (lines 48-51): the error message, then the
manual-recovery instructions naming the URL and the absolute destination. -/
def failureOutput (env : Env) (msg : String) : List Msg :=
  [Msg.downloadFailed msg, Msg.manualHint, Msg.manualUrl MODEL_URL,
   Msg.manualSave (absolutePath env.cwd model_path)]

/-- `download_model()` (lines 19-52).  Note the `mkdir` call of line 22 sits
*before* the `try:` of line 30: an exception it raises propagates out of the
function uncaught.  Everything inside the `try:` (transfer, stat, success
prints) is covered by the `except` that returns `False`. -/
def download_model (env : Env) (fs0 : FS) : RunResult :=
  match mkdirAct env fs0 MODEL_DIR with
  | Except.error msg => ⟨fs0, [], Except.error msg⟩
  | Except.ok fs1 =>
    match retrieveAct env fs1 MODEL_URL model_path with
    | Except.error msg =>
      ⟨fs1, headerOutput ++ progressOutput env ++ failureOutput env msg,
        Except.ok false⟩
    | Except.ok fs2 =>
      match statAct env fs2 model_path with
      | Except.error msg =>
        ⟨fs2, headerOutput ++ progressOutput env ++ [Msg.blank] ++ failureOutput env msg,
          Except.ok false⟩
      | Except.ok sz =>
        ⟨fs2, headerOutput ++ progressOutput env ++
          [Msg.blank, Msg.successBanner MODEL_FILE,
           Msg.fileSizeLine (round2 ((sz : ℚ) / 1024 / 1024)),
           Msg.locationLine (absolutePath env.cwd model_path)],
          Except.ok true⟩

/-- `__main__` (lines 54-60): `sys.exit(0 if success else 1)`.  An exception
propagating out of `download_model` never reaches `sys.exit`. -/
def mainRun (env : Env) (fs : FS) : Except String Nat :=
  match (download_model env fs).result with
  | Except.ok success => Except.ok (if success then 0 else 1)
  | Except.error msg => Except.error msg

/-- An empty filesystem: no directories, no files. -/
def fsEmpty : FS := ⟨[], fun _ => none⟩

/-- A filesystem where the destination directory already exists and an
unrelated file sits next to the destination. -/
def fsWithDir : FS :=
  ⟨["assets/models"], fun q => if q = "assets/models/other.bin" then some [7, 7] else none⟩

/-- An environment where every call succeeds and the transfer delivers
three bytes. -/
def envOK : Env :=
  ⟨none, Except.ok [1, 2, 3], [(1, 2, 3), (2, 2, 3)], none, "/repo"⟩

/-- An environment where the network transfer raises. -/
def envNetFail : Env :=
  ⟨none, Except.error "Name or service not known", [], none, "/repo"⟩

/-- An environment where directory creation raises. -/
def envMkdirFail : Env :=
  ⟨some "Permission denied", Except.ok [1], [], none, "/repo"⟩

/-- An environment where the transfer succeeds but the post-transfer stat
raises. -/
def envStatFail : Env :=
  ⟨none, Except.ok [5, 5], [], some "stat failed", "/repo"⟩

/-- A second successful environment delivering a different payload. -/
def envOK2 : Env :=
  ⟨none, Except.ok [9], [], none, "/repo"⟩

/-- A filesystem holding only the destination directory. -/
def fsDirOnly : FS := ⟨MODEL_DIR :: [], fun _ => none⟩

theorem FS.read_write_self (fs : FS) (p : String) (b : Bytes) :
    (fs.write p b).read p = some b := by
  simp [FS.read, FS.write]

theorem FS.read_write_ne (fs : FS) (p q : String) (b : Bytes) (h : q ≠ p) :
    (fs.write p b).read q = fs.read q := by
  simp [FS.read, FS.write, h]

theorem mkdirAct_files (env : Env) (fs fs1 : FS) (d : String)
    (h : mkdirAct env fs d = Except.ok fs1) : fs1.files = fs.files := by
  unfold mkdirAct at h
  by_cases hd : d ∈ fs.dirs
  · rw [if_pos hd] at h
    cases h
    rfl
  · rw [if_neg hd] at h
    cases hm : env.mkdirFails with
    | some m => rw [hm] at h; cases h
    | none => rw [hm] at h; cases h; rfl

theorem show_progress_mono (bs : Nat) (ts : Int) (hts : 0 < ts)
    (bn1 bn2 : Nat) (h : bn1 ≤ bn2) :
    show_progress bn1 bs ts ≤ show_progress bn2 bs ts := by
  unfold show_progress
  rw [if_pos hts, if_pos hts]
  have ht : (0 : ℚ) < (ts : ℚ) := by exact_mod_cast hts
  refine min_le_min ?_ le_rfl
  have hnn : ((bn1 * bs : Nat) : ℚ) ≤ ((bn2 * bs : Nat) : ℚ) := by
    exact_mod_cast Nat.mul_le_mul_right bs h
  have := mul_le_mul_of_nonneg_right hnn (by norm_num : (0 : ℚ) ≤ 100)
  exact div_le_div_of_nonneg_right this ht.le

theorem show_progress_complete (bn bs : Nat) (ts : Int) (hts : 0 < ts)
    (h : (ts : ℚ) ≤ ((bn * bs : Nat) : ℚ)) :
    show_progress bn bs ts = 100 := by
  unfold show_progress
  rw [if_pos hts]
  have ht : (0 : ℚ) < (ts : ℚ) := by exact_mod_cast hts
  rw [min_eq_right]
  rw [le_div_iff₀ ht]
  linarith

/-- C3: invoked with block count, block size and total size, the progress
callback reports `min(100, bytesTransferred / totalBytes * 100)` when the
total is positive (with `bytesTransferred = block_num * block_size`), and
`0` when the total is unknown or zero. -/
theorem c3_progress_formula (bn bs : Nat) (ts : Int) :
    (ts > 0 →
      show_progress bn bs ts = min 100 (((bn * bs : Nat) : ℚ) / (ts : ℚ) * 100)) ∧
    (ts ≤ 0 → show_progress bn bs ts = 0) := by
  constructor
  · intro h
    unfold show_progress
    rw [if_pos h, min_comm, div_mul_eq_mul_div]
  · intro h
    unfold show_progress
    rw [if_neg (not_lt.mpr h)]

/-- C3 witness: concrete evaluations of the two branches. -/
theorem c3_progress_formula_witness :
    show_progress 2 512 2048 = min 100 (((2 * 512 : Nat) : ℚ) / ((2048 : Int) : ℚ) * 100) ∧
    show_progress 3 512 0 = 0 :=
  ⟨(c3_progress_formula 2 512 2048).1 (by decide),
   (c3_progress_formula 3 512 0).2 (by decide)⟩

/-- C4: with a known positive total size, a non-decreasing sequence of block
counts yields a non-decreasing sequence of reported percentages, and any
report where the accumulated bytes reach the total equals 100. -/
theorem c4_progress_monotone (bs : Nat) (ts : Int) (l : List Nat)
    (hts : 0 < ts) (hl : l.Pairwise (· ≤ ·)) :
    ((l.map fun bn => show_progress bn bs ts).Pairwise (· ≤ ·)) ∧
    (∀ bn : Nat, (ts : ℚ) ≤ ((bn * bs : Nat) : ℚ) → show_progress bn bs ts = 100) := by
  constructor
  · rw [List.pairwise_map]
    exact hl.imp fun h => show_progress_mono bs ts hts _ _ h
  · intro bn h
    exact show_progress_complete bn bs ts hts h

/-- C4 witness: a concrete run with total 1024 and block size 512. -/
theorem c4_progress_monotone_witness :
    (([0, 1, 2].map fun bn => show_progress bn 512 1024).Pairwise (· ≤ ·)) ∧
    show_progress 2 512 1024 = 100 :=
  ⟨(c4_progress_monotone 512 1024 [0, 1, 2] (by decide) (by decide)).1,
   (c4_progress_monotone 512 1024 [0, 1, 2] (by decide) (by decide)).2 2 (by decide)⟩

/-- C10: the progress callback divides only under the `total_size > 0`
guard: for every non-positive total (including the `-1` sentinel used when
the content length is absent) it reports 0. -/
theorem c10_nonpositive_total (bn bs : Nat) (ts : Int) (h : ts ≤ 0) :
    show_progress bn bs ts = 0 := by
  unfold show_progress
  rw [if_neg (not_lt.mpr h)]

/-- C10 witness: the `-1` sentinel reports 0. -/
theorem c10_nonpositive_total_witness : show_progress 5 4096 (-1) = 0 :=
  c10_nonpositive_total 5 4096 (-1) (by decide)

/-- C1 counterexample: when directory creation raises (here with message
"Permission denied", on an empty filesystem), `download_model` does not
return `false` and prints nothing — the exception propagates uncaught,
contradicting the claim that errors during directory creation are caught
and converted to a printed failure. -/
theorem c1_counterexample :
    (download_model envMkdirFail fsEmpty).result = Except.error "Permission denied" ∧
    (download_model envMkdirFail fsEmpty).result ≠ Except.ok false ∧
    (download_model envMkdirFail fsEmpty).output = [] := by
  refine ⟨rfl, ?_, rfl⟩
  intro h
  simp [download_model, mkdirAct, envMkdirFail, fsEmpty, MODEL_DIR] at h

/-- C1 (amended): any error raised during the transfer is caught as one
generic failure: the error message, the source URL and the absolute
destination path are printed as manual-recovery instructions and `false` is
returned; but an error raised by the directory creation of line 22, which
sits before the `try:`, propagates out of `download_model` uncaught, with
nothing printed. -/
theorem c1_generic_failure_handling (env : Env) (fs : FS) :
    (∀ fs1 m, mkdirAct env fs MODEL_DIR = Except.ok fs1 →
      env.retrieveOutcome = Except.error m →
      (download_model env fs).result = Except.ok false ∧
      Msg.downloadFailed m ∈ (download_model env fs).output ∧
      Msg.manualUrl MODEL_URL ∈ (download_model env fs).output ∧
      Msg.manualSave (absolutePath env.cwd model_path) ∈ (download_model env fs).output) ∧
    (∀ m, mkdirAct env fs MODEL_DIR = Except.error m →
      (download_model env fs).result = Except.error m ∧
      (download_model env fs).output = []) := by
  constructor
  · intro fs1 m hmk hr
    simp [download_model, hmk, retrieveAct, hr, failureOutput]
  · intro m hmk
    simp [download_model, hmk]

/-- C1 witness: a transfer failure on an existing directory is caught,
returns `false` and prints the recovery instructions. -/
theorem c1_generic_failure_handling_witness :
    (download_model envNetFail fsWithDir).result = Except.ok false ∧
    Msg.downloadFailed "Name or service not known" ∈ (download_model envNetFail fsWithDir).output ∧
    Msg.manualUrl MODEL_URL ∈ (download_model envNetFail fsWithDir).output ∧
    Msg.manualSave (absolutePath envNetFail.cwd model_path) ∈
      (download_model envNetFail fsWithDir).output :=
  (c1_generic_failure_handling envNetFail fsWithDir).1 fsWithDir
    "Name or service not known" rfl rfl

/-- C2: whenever `download_model` returns a boolean, the process exit status
is 0 on `true` and 1 on `false`, and these are the only exit codes the
script's own logic can produce. -/
theorem c2_exit_codes (env : Env) (fs : FS) :
    (∀ success : Bool, (download_model env fs).result = Except.ok success →
      mainRun env fs = Except.ok (if success then 0 else 1)) ∧
    (∀ n : Nat, mainRun env fs = Except.ok n → n = 0 ∨ n = 1) := by
  constructor
  · intro s h
    simp [mainRun, h]
  · intro n h
    unfold mainRun at h
    cases hr : (download_model env fs).result with
    | error m => rw [hr] at h; cases h
    | ok s =>
      rw [hr] at h
      cases h
      cases s
      · right; rfl
      · left; rfl

/-- C2 witness: a fully successful run exits with code 0. -/
theorem c2_exit_codes_witness : mainRun envOK fsEmpty = Except.ok 0 :=
  (c2_exit_codes envOK fsEmpty).1 true rfl

/-- C6: when the transfer raises (e.g. DNS resolution fails) after the
directory step succeeded, `download_model` returns failure, the
manual-recovery URL and destination path are printed, and the process exits
with code 1. -/
theorem c6_unreachable_url (env : Env) (fs fs1 : FS) (m : String)
    (hmk : mkdirAct env fs MODEL_DIR = Except.ok fs1)
    (hr : env.retrieveOutcome = Except.error m) :
    (download_model env fs).result = Except.ok false ∧
    Msg.manualUrl MODEL_URL ∈ (download_model env fs).output ∧
    Msg.manualSave (absolutePath env.cwd model_path) ∈ (download_model env fs).output ∧
    mainRun env fs = Except.ok 1 := by
  have hres : (download_model env fs).result = Except.ok false := by
    simp [download_model, hmk, retrieveAct, hr]
  refine ⟨hres, ?_, ?_, ?_⟩
  · simp [download_model, hmk, retrieveAct, hr, failureOutput]
  · simp [download_model, hmk, retrieveAct, hr, failureOutput]
  · simp [mainRun, hres]

/-- C6 witness: a concrete unreachable-host run returns failure and exit
code 1 with the recovery lines printed. -/
theorem c6_unreachable_url_witness :
    (download_model envNetFail fsEmpty).result = Except.ok false ∧
    Msg.manualUrl MODEL_URL ∈ (download_model envNetFail fsEmpty).output ∧
    Msg.manualSave (absolutePath envNetFail.cwd model_path) ∈
      (download_model envNetFail fsEmpty).output ∧
    mainRun envNetFail fsEmpty = Except.ok 1 :=
  c6_unreachable_url envNetFail fsEmpty fsDirOnly "Name or service not known" rfl rfl

theorem download_model_read_of_ok (env : Env) (fs : FS) (b : Bytes)
    (hr : env.retrieveOutcome = Except.ok b)
    (hs : (download_model env fs).result = Except.ok true) :
    (download_model env fs).fs.read model_path = some b := by
  cases hm : mkdirAct env fs MODEL_DIR with
  | error m => simp [download_model, hm] at hs
  | ok fs1 =>
    cases hst : env.statFails with
    | some m => simp [download_model, hm, retrieveAct, hr, statAct, hst] at hs
    | none =>
      simp [download_model, hm, retrieveAct, hr, statAct, hst, FS.read, FS.write]

/-- C5: on the success path the reported size is the destination file's size
read back from the filesystem after the transfer, divided by 1024 twice and
rendered to two decimal places, printed next to the absolute resolved
destination path. -/
theorem c5_size_report (env : Env) (fs fs1 : FS) (b : Bytes)
    (hmk : mkdirAct env fs MODEL_DIR = Except.ok fs1)
    (hr : env.retrieveOutcome = Except.ok b)
    (hst : env.statFails = none) :
    (download_model env fs).result = Except.ok true ∧
    statAct env ((download_model env fs).fs) model_path = Except.ok b.length ∧
    (download_model env fs).output =
      headerOutput ++ progressOutput env ++
        [Msg.blank, Msg.successBanner MODEL_FILE,
         Msg.fileSizeLine (round2 ((b.length : ℚ) / 1024 / 1024)),
         Msg.locationLine (absolutePath env.cwd model_path)] := by
  refine ⟨?_, ?_, ?_⟩ <;>
    simp [download_model, hmk, retrieveAct, hr, statAct, hst, FS.read, FS.write]

/-- C5 witness: a successful three-byte transfer reports
`round2 (3 / 1024 / 1024)` MB at the absolute destination path. -/
theorem c5_size_report_witness :
    (download_model envOK fsEmpty).result = Except.ok true ∧
    statAct envOK ((download_model envOK fsEmpty).fs) model_path = Except.ok 3 ∧
    (download_model envOK fsEmpty).output =
      headerOutput ++ progressOutput envOK ++
        [Msg.blank, Msg.successBanner MODEL_FILE,
         Msg.fileSizeLine (round2 ((3 : ℚ) / 1024 / 1024)),
         Msg.locationLine (absolutePath envOK.cwd model_path)] :=
  c5_size_report envOK fsEmpty fsDirOnly [1, 2, 3] rfl rfl rfl

/-- C7: when the destination directory already exists, directory creation
succeeds silently without changing the filesystem, and the run alters no
file other than the destination file. -/
theorem c7_idempotent_mkdir (env : Env) (fs : FS) (hd : MODEL_DIR ∈ fs.dirs) :
    mkdirAct env fs MODEL_DIR = Except.ok fs ∧
    ∀ p : String, p ≠ model_path → (download_model env fs).fs.read p = fs.read p := by
  have hmk : mkdirAct env fs MODEL_DIR = Except.ok fs := by
    simp [mkdirAct, hd]
  refine ⟨hmk, ?_⟩
  intro p hp
  cases hr : env.retrieveOutcome with
  | error m => simp [download_model, hmk, retrieveAct, hr]
  | ok b =>
    cases hst : env.statFails with
    | some m =>
      simp [download_model, hmk, retrieveAct, hr, statAct, hst, FS.read, FS.write, hp]
    | none =>
      simp [download_model, hmk, retrieveAct, hr, statAct, hst, FS.read, FS.write, hp]

/-- C7 witness: with the directory present and an unrelated neighbour file,
creation is a silent no-op and the neighbour's contents survive the run. -/
theorem c7_idempotent_mkdir_witness :
    mkdirAct envOK fsWithDir MODEL_DIR = Except.ok fsWithDir ∧
    (download_model envOK fsWithDir).fs.read "assets/models/other.bin" =
      fsWithDir.read "assets/models/other.bin" :=
  ⟨(c7_idempotent_mkdir envOK fsWithDir (by decide)).1,
   (c7_idempotent_mkdir envOK fsWithDir (by decide)).2
     "assets/models/other.bin" (by decide)⟩

/-- C8: after two consecutive successful fetches to the same destination,
the destination file holds exactly the bytes of the second transfer — the
first payload is fully overwritten, with no appending and no residue. -/
theorem c8_overwrite (env1 env2 : Env) (fs : FS) (b1 b2 : Bytes)
    (h1 : env1.retrieveOutcome = Except.ok b1)
    (hs1 : (download_model env1 fs).result = Except.ok true)
    (h2 : env2.retrieveOutcome = Except.ok b2)
    (hs2 : (download_model env2 (download_model env1 fs).fs).result = Except.ok true) :
    (download_model env2 (download_model env1 fs).fs).fs.read model_path = some b2 :=
  download_model_read_of_ok env2 (download_model env1 fs).fs b2 h2 hs2

/-- C8 witness: fetching `[1, 2, 3]` then `[9]` leaves exactly `[9]` at the
destination. -/
theorem c8_overwrite_witness :
    (download_model envOK2 (download_model envOK fsEmpty).fs).fs.read model_path =
      some [9] :=
  c8_overwrite envOK envOK2 fsEmpty [1, 2, 3] [9] rfl rfl rfl rfl

/-- C9: whenever `download_model` returns `true`, a file exists at the
destination at success time and the reported size is that file's actual
size; when the post-transfer stat raises, the function returns `false`
instead of reporting success. -/
theorem c9_stat_contract (env : Env) (fs : FS) :
    ((download_model env fs).result = Except.ok true →
      ∃ b : Bytes, (download_model env fs).fs.read model_path = some b ∧
        Msg.fileSizeLine (round2 ((b.length : ℚ) / 1024 / 1024)) ∈
          (download_model env fs).output) ∧
    (∀ fs1 b m, mkdirAct env fs MODEL_DIR = Except.ok fs1 →
      env.retrieveOutcome = Except.ok b → env.statFails = some m →
      (download_model env fs).result = Except.ok false) := by
  constructor
  · intro hs
    cases hm : mkdirAct env fs MODEL_DIR with
    | error m => simp [download_model, hm] at hs
    | ok fs1 =>
      cases hr : env.retrieveOutcome with
      | error m => simp [download_model, hm, retrieveAct, hr] at hs
      | ok b =>
        cases hst : env.statFails with
        | some m => simp [download_model, hm, retrieveAct, hr, statAct, hst] at hs
        | none =>
          refine ⟨b, ?_, ?_⟩ <;>
            simp [download_model, hm, retrieveAct, hr, statAct, hst, FS.read, FS.write]
  · intro fs1 b m hm hr hst
    simp [download_model, hm, retrieveAct, hr, statAct, hst]

/-- C9 witness: a run whose stat raises returns `false`. -/
theorem c9_stat_contract_witness :
    (download_model envStatFail fsEmpty).result = Except.ok false :=
  (c9_stat_contract envStatFail fsEmpty).2 fsDirOnly [5, 5] "stat failed" rfl rfl rfl

end Forma
